import Mathlib

/-!
Verification of the browser acquisition and dependency-installation subsystem
of the dante-pdf conversion node.

The development shallowly embeds two source modules:

* `SystemDependencyInstaller` (systemDependencies module): system-profile
  dispatch and per-package-manager installation with per-package success
  accounting.  External commands (package-manager invocations) are modelled by
  an `InstallEnv` of injected outcomes; a command that the environment marks as
  failing corresponds to a rejected `execAsync` promise, embedded as
  `Except.error`.  JavaScript `try`/`catch` is embedded as `jsTry`.

* `BrowserSetup` (browserSetup module): candidate-path search
  (`findOptimalBrowserPath`), the cached setup entry point (`setupBrowser`),
  launch with fallback (`createOptimizedBrowser`) and the status query
  (`getBrowserStatus`).  The module-level mutable statics `browserPath` and
  `systemOptimized` are threaded explicitly as a `BrowserCache` value, the
  filesystem existence check and the bundled (Playwright) engine resolution are
  injected through `BrowserEnv`, and the number of dependency-install and
  launch invocations is returned so that side-effect counts can be stated.

A small cooperative-interleaving model (`stepTask` / `runSystem`) embeds two
concurrent `setupBrowser` callers of the single-threaded event loop: each task
is cut at its `await` points exactly as in the source, and a schedule picks
which task runs next.
-/

/-- Result of `detectSystem`: the system profile.  Detection itself absorbs
all sub-probe failures and always yields such a record, so the profile is
taken as an input of the embedded operations. -/
structure SystemInfo where
  platform : String
  arch : String := "x64"
  libc : Option String := none
  distro : String := "unknown"
  isWSL : Bool := false
  osVersion : String := ""
deriving Repr, DecidableEq

/-- `InstallResult` as produced by the installer: the optional package lists
mirror the source records in which `installedPackages` / `failedPackages` are
sometimes omitted (`none`). -/
structure InstallResult where
  success : Bool
  message : String
  installedPackages : Option (List String) := none
  failedPackages : Option (List String) := none
deriving Repr, DecidableEq

/-- Injected outcomes of the external package-manager commands.  A `false`
entry means the corresponding command fails (its promise rejects, carrying
`errText` as the error message). -/
structure InstallEnv where
  errText : String := "command failed"
  apkUpdateOk : Bool := true
  apkInfoInstalled : String → Bool := fun _ => false
  apkAddOk : String → Bool := fun _ => true
  aptUpdateOk : Bool := true
  aptBatchOk : Bool := true
  aptAddOk : String → Bool := fun _ => true
  dnfPresent : Bool := true
  rhAddOk : String → Bool := fun _ => true
  pacmanAddOk : String → Bool := fun _ => true
  chocoPresent : Bool := true
  chocoAddOk : String → Bool := fun _ => true
  xcodeOk : Bool := true

/-- JavaScript `try { body } catch (e) { handler }` over the `Except`
embedding of promise rejection. -/
def jsTry {α : Type} (body : Except String α) (handler : String → α) : α :=
  match body with
  | .ok a => a
  | .error e => handler e

/-- Fixed Alpine package list of `installAlpineDependencies`. -/
def alpineBasePackages : List String :=
  ["gcompat", "libstdc++", "chromium", "ttf-liberation", "fontconfig",
   "cairo", "pango", "gdk-pixbuf", "gtk+3.0", "nss", "freetype", "harfbuzz",
   "alsa-lib", "alsa-lib-dev", "pulseaudio-libs"]

/-- The Alpine branch extends the fixed list for musl environments. -/
def alpinePackages (si : SystemInfo) : List String :=
  alpineBasePackages ++
    (if si.libc == some "musl" then ["glib", "atk", "at-spi2-atk", "cups-libs"] else [])

/-- Body of `installAlpineDependencies` up to its own `catch`: `apk update`
first (its failure rejects the whole body), then a per-package loop whose
`apk info`/`apk add` failures are caught per package. -/
def installAlpineBody (env : InstallEnv) (si : SystemInfo) : Except String InstallResult :=
  if env.apkUpdateOk then
    let pkgs := alpinePackages si
    let installed := pkgs.filter fun p => env.apkInfoInstalled p || env.apkAddOk p
    let failed := pkgs.filter fun p => !env.apkInfoInstalled p && !env.apkAddOk p
    .ok { success := decide (2 * failed.length < pkgs.length)
          message := "Alpine dependencies installation completed. Installed: "
            ++ toString installed.length ++ ", Failed: " ++ toString failed.length
          installedPackages := some installed
          failedPackages := some failed }
  else
    .error env.errText

/-- `installAlpineDependencies`: the branch `catch` turns a rejected body into
a failed result.  When the catch fires, only `apk update` has run, so the
accumulated `failedPackages` array is empty and `installedPackages` is omitted. -/
def installAlpineDependencies (env : InstallEnv) (si : SystemInfo) : InstallResult :=
  jsTry (installAlpineBody env si) fun e =>
    { success := false
      message := "Alpine dependency installation failed: " ++ e
      failedPackages := some [] }

/-- Fixed Debian package list of `installDebianDependencies`. -/
def debianPackages : List String :=
  ["libnss3", "libatk-bridge2.0-0", "libxcomposite1", "libxdamage1",
   "libxrandr2", "libgbm1", "libxss1", "libasound2", "libatspi2.0-0",
   "libgtk-3-0", "libgdk-pixbuf2.0-0", "libglib2.0-0", "fonts-liberation",
   "libappindicator3-1", "xdg-utils"]

/-- Body of `installDebianDependencies` up to its own `catch`: `apt-get
update` first (failure rejects the body), then a batch install; if the batch
fails, a per-package loop with per-package catches. -/
def installDebianBody (env : InstallEnv) (si : SystemInfo) : Except String InstallResult :=
  if env.aptUpdateOk then
    let pkgs := debianPackages
    let installed := if env.aptBatchOk then pkgs else pkgs.filter env.aptAddOk
    let failed := if env.aptBatchOk then [] else pkgs.filter fun p => !env.aptAddOk p
    .ok { success := decide (2 * failed.length < pkgs.length)
          message := "Debian dependencies installation completed. Installed: "
            ++ toString installed.length ++ ", Failed: " ++ toString failed.length
          installedPackages := some installed
          failedPackages := some failed }
  else
    .error env.errText

/-- `installDebianDependencies` with its branch-level `catch`. -/
def installDebianDependencies (env : InstallEnv) (si : SystemInfo) : InstallResult :=
  jsTry (installDebianBody env si) fun e =>
    { success := false
      message := "Debian dependency installation failed: " ++ e
      failedPackages := some [] }

/-- `installWSLDependencies` delegates to the Debian branch and prefixes the
message.  The display/audio environment-variable mutation has no observable
effect on the returned outcome and is not modelled. -/
def installWSLDependencies (env : InstallEnv) (si : SystemInfo) : InstallResult :=
  let d := installDebianDependencies env si
  { d with message := "WSL " ++ d.message }

/-- Fixed RedHat package list. -/
def redhatPackages : List String :=
  ["nss", "atk", "cups-libs", "gtk3", "libXcomposite", "libXdamage",
   "libXrandr", "libgbm", "libXss", "alsa-lib"]

/-- `installRedHatDependencies`: no index refresh; per-package loop with
per-package catches (the dnf/yum choice does not change the accounting). -/
def installRedHatDependencies (env : InstallEnv) (si : SystemInfo) : InstallResult :=
  let pkgs := redhatPackages
  let installed := pkgs.filter env.rhAddOk
  let failed := pkgs.filter fun p => !env.rhAddOk p
  { success := decide (2 * failed.length < pkgs.length)
    message := "RedHat dependencies installation completed. Installed: "
      ++ toString installed.length ++ ", Failed: " ++ toString failed.length
    installedPackages := some installed
    failedPackages := some failed }

/-- Fixed Arch package list. -/
def archPackages : List String :=
  ["nss", "atk", "gtk3", "libxcomposite", "libxdamage", "libxrandr",
   "mesa", "libxss", "alsa-lib"]

/-- `installArchDependencies`: per-package `pacman` loop with per-package
catches. -/
def installArchDependencies (env : InstallEnv) (si : SystemInfo) : InstallResult :=
  let pkgs := archPackages
  let installed := pkgs.filter env.pacmanAddOk
  let failed := pkgs.filter fun p => !env.pacmanAddOk p
  { success := decide (2 * failed.length < pkgs.length)
    message := "Arch dependencies installation completed. Installed: "
      ++ toString installed.length ++ ", Failed: " ++ toString failed.length
    installedPackages := some installed
    failedPackages := some failed }

/-- Fixed Windows (Chocolatey) package list. -/
def windowsPackages : List String :=
  ["vcredist2019", "visualcpp-build-tools"]

/-- `installWindowsDependencies`: if Chocolatey is present the two packages
are attempted with per-package catches; the returned `success` field is the
literal `true` in both the with-Chocolatey and without-Chocolatey paths. -/
def installWindowsDependencies (env : InstallEnv) (si : SystemInfo) : InstallResult :=
  let installed := if env.chocoPresent then windowsPackages.filter env.chocoAddOk else []
  let failed :=
    if env.chocoPresent then windowsPackages.filter (fun p => !env.chocoAddOk p) else []
  { success := true
    message := "Windows dependencies installation completed. Installed: "
      ++ toString installed.length ++ ", Failed: " ++ toString failed.length
    installedPackages := some installed
    failedPackages := some failed }

/-- `installMacOSDependencies`: presence of the Xcode command-line tools is
the macOS dependency. -/
def installMacOSDependencies (env : InstallEnv) (si : SystemInfo) : InstallResult :=
  if env.xcodeOk then
    { success := true
      message := "macOS dependencies verified successfully"
      installedPackages := some ["xcode-command-line-tools"] }
  else
    { success := false
      message := "Please install Xcode Command Line Tools: xcode-select --install"
      failedPackages := some ["xcode-command-line-tools"] }

/-- The dispatch inside `installDependencies`'s outer `try`: platform and
distro routing, with a success no-op for unrouted profiles. -/
def dispatchBody (env : InstallEnv) (si : SystemInfo) : Except String InstallResult :=
  if si.platform == "win32" then .ok (installWindowsDependencies env si)
  else if si.platform == "linux" then
    if si.isWSL then .ok (installWSLDependencies env si)
    else if si.distro == "alpine" then .ok (installAlpineDependencies env si)
    else if si.distro == "debian" then .ok (installDebianDependencies env si)
    else if si.distro == "redhat" then .ok (installRedHatDependencies env si)
    else if si.distro == "arch" then .ok (installArchDependencies env si)
    else .ok { success := true
               message := "No dependency installation required for "
                 ++ si.platform ++ "/" ++ si.distro }
  else if si.platform == "darwin" then .ok (installMacOSDependencies env si)
  else .ok { success := true
             message := "No dependency installation required for "
               ++ si.platform ++ "/" ++ si.distro }

/-- `SystemDependencyInstaller.installDependencies` with its outer `catch`. -/
def installDependencies (env : InstallEnv) (si : SystemInfo) : InstallResult :=
  jsTry (dispatchBody env si) fun e =>
    { success := false
      message := "Failed to install system dependencies: " ++ e }

/-- Truthiness of the recurring `distro === 'alpine' || libc === 'musl'`
condition of the browserSetup module. -/
def alpineMuslB (si : SystemInfo) : Bool :=
  si.distro == "alpine" || si.libc == some "musl"

/-- `BrowserSetupOptions` of the browserSetup module; optional fields. -/
structure BrowserSetupOptions where
  headless : Option Bool := none
  timeout : Option Nat := none
  retryAttempts : Option Nat := none
  useSystemChrome : Option Bool := none
deriving Repr, DecidableEq

/-- Platform/distro-ordered candidate list of `findOptimalBrowserPath`. -/
def candidatePathsFor (si : SystemInfo) : List String :=
  if si.platform == "win32" then
    ["C:\\Program Files\\Google\\Chrome\\Application\\chrome.exe",
     "C:\\Program Files (x86)\\Google\\Chrome\\Application\\chrome.exe",
     "C:\\Program Files\\Microsoft\\Edge\\Application\\msedge.exe",
     "C:\\Program Files (x86)\\Microsoft\\Edge\\Application\\msedge.exe"]
  else if si.platform == "darwin" then
    ["/Applications/Google Chrome.app/Contents/MacOS/Google Chrome",
     "/Applications/Microsoft Edge.app/Contents/MacOS/Microsoft Edge",
     "/Applications/Chromium.app/Contents/MacOS/Chromium"]
  else if si.platform == "linux" then
    if alpineMuslB si then
      ["/usr/bin/chromium-browser",
       "/usr/bin/chromium",
       "/usr/lib/chromium/chromium",
       "/usr/bin/google-chrome-stable",
       "/usr/bin/google-chrome"]
    else
      ["/usr/bin/google-chrome-stable",
       "/usr/bin/google-chrome",
       "/usr/bin/chromium-browser",
       "/usr/bin/chromium",
       "/snap/bin/chromium",
       "/var/lib/flatpak/app/org.chromium.Chromium/current/active/export/bin/org.chromium.Chromium"]
  else []

/-- Error message thrown for Alpine/musl profiles with no system browser. -/
def alpineRequiresMsg : String :=
  "Alpine Linux requires system Chromium. Please install with: apk add chromium chromium-chromedriver"

/-- Error message thrown when nothing matched anywhere. -/
def noBrowserMsg : String :=
  "No suitable browser found. Please install Chrome, Chromium, or run: npx playwright-core install chromium"

/-- Injected environment of the browserSetup module: the detected profile,
the installer command outcomes, the filesystem existence check, the bundled
(Playwright) engine resolution (`chromium.executablePath()`, which can throw),
and the outcome and error text of the n-th `chromium.launch` invocation. -/
structure BrowserEnv where
  systemInfo : SystemInfo
  installEnv : InstallEnv := {}
  fsExists : String → Bool := fun _ => false
  playwrightPath : Except String String := .error "playwright not installed"
  launchOk : Nat → Bool := fun _ => true
  launchErr : Nat → String := fun _ => "launch failed"

/-- The bundled-engine probe: `chromium.executablePath()` wrapped in
`try`/`catch`, followed by truthiness and existence checks. -/
def pwResolved (env : BrowserEnv) : Option String :=
  match env.playwrightPath with
  | .ok p => if p != "" && env.fsExists p then some p else none
  | .error _ => none

/-- Final fallback of `findOptimalBrowserPath`: re-scan the candidate list,
then throw the platform-appropriate message. -/
def systemFallbackScan (env : BrowserEnv) (si : SystemInfo) : Except String String :=
  match (candidatePathsFor si).find? env.fsExists with
  | some p => .ok p
  | none => if alpineMuslB si then .error alpineRequiresMsg else .error noBrowserMsg

/-- Code following the system-only block of `findOptimalBrowserPath`: the
bundled-engine probe (guarded to non-Alpine/non-musl) and the final fallback
scan. -/
def afterSystemLoop (env : BrowserEnv) (si : SystemInfo) : Except String String :=
  if !alpineMuslB si then
    match pwResolved env with
    | some p => .ok p
    | none => systemFallbackScan env si
  else systemFallbackScan env si

/-- `BrowserSetup.findOptimalBrowserPath`: on Alpine/musl (or with
`useSystemChrome` set) scan the system candidates first and fail hard on
Alpine/musl; otherwise probe the bundled engine before the candidate scan. -/
def findOptimalBrowserPath (env : BrowserEnv) (si : SystemInfo)
    (opts : BrowserSetupOptions) : Except String String :=
  if alpineMuslB si || opts.useSystemChrome == some true then
    match (candidatePathsFor si).find? env.fsExists with
    | some p => .ok p
    | none =>
      if alpineMuslB si then .error alpineRequiresMsg
      else afterSystemLoop env si
  else afterSystemLoop env si

/-- The module-level mutable statics of `BrowserSetup`. -/
structure BrowserCache where
  browserPath : Option String := none
  systemOptimized : Bool := false
deriving Repr, DecidableEq

/-- Observable outcome of one `setupBrowser` call: the returned-or-thrown
value, the updated statics, the (possibly mutated) caller options object, and
how many times `installDependencies` was invoked during the call. -/
structure SetupOut where
  result : Except String String
  cache : BrowserCache
  opts : BrowserSetupOptions
  installCalls : Nat

/-- The non-cached path of `setupBrowser`: install dependencies (recording
success in `systemOptimized`), detect the system, force `useSystemChrome` on
Alpine/musl by mutating the caller options, then resolve the path and store
it in `browserPath` (a throw leaves `browserPath` unassigned). -/
def setupBrowserFull (env : BrowserEnv) (c : BrowserCache)
    (opts : BrowserSetupOptions) : SetupOut :=
  let installResult := installDependencies env.installEnv env.systemInfo
  let c1 : BrowserCache := { c with systemOptimized := installResult.success || c.systemOptimized }
  let si := env.systemInfo
  let opts1 := if alpineMuslB si then { opts with useSystemChrome := some true } else opts
  match findOptimalBrowserPath env si opts1 with
  | .ok p => ⟨.ok p, { c1 with browserPath := some p }, opts1, 1⟩
  | .error e => ⟨.error e, c1, opts1, 1⟩

/-- `BrowserSetup.setupBrowser`: return the cached path when both statics are
set, otherwise run the full setup. -/
def setupBrowser (env : BrowserEnv) (c : BrowserCache)
    (opts : BrowserSetupOptions) : SetupOut :=
  match c.browserPath with
  | some p => if c.systemOptimized then ⟨.ok p, c, opts, 0⟩ else setupBrowserFull env c opts
  | none => setupBrowserFull env c opts

/-- `BrowserLaunchResult` minus the live browser object. -/
structure BrowserLaunchResult where
  executablePath : String
  systemOptimized : Bool
deriving Repr, DecidableEq

/-- Observable outcome of one `createOptimizedBrowser` call, with the number
of `chromium.launch` invocations made. -/
structure LaunchOut where
  result : Except String BrowserLaunchResult
  cache : BrowserCache
  installCalls : Nat
  launchCalls : Nat

/-- The composed launch-failure message thrown by `createOptimizedBrowser`. -/
def failedLaunchMsg (env : BrowserEnv) : String :=
  "Failed to launch browser: " ++ env.launchErr 1
    ++ ". Please ensure Chrome/Chromium is properly installed."

/-- The launch part of `createOptimizedBrowser`, given the `setupBrowser`
outcome: launch once; on failure, if the launch options carried a (truthy)
explicit path, make one fallback launch without it (whose result uses
`chromium.executablePath()`, a throw from which also lands in the final
error); otherwise throw the composed message. -/
def launchWithFallback (env : BrowserEnv) (s : SetupOut) : LaunchOut :=
  match s.result with
  | .error e => ⟨.error e, s.cache, s.installCalls, 0⟩
  | .ok path =>
    if env.launchOk 1 then
      ⟨.ok ⟨path, s.cache.systemOptimized⟩, s.cache, s.installCalls, 1⟩
    else if path != "" then
      if env.launchOk 2 then
        match env.playwrightPath with
        | .ok pw => ⟨.ok ⟨pw, false⟩, s.cache, s.installCalls, 2⟩
        | .error _ => ⟨.error (failedLaunchMsg env), s.cache, s.installCalls, 2⟩
      else ⟨.error (failedLaunchMsg env), s.cache, s.installCalls, 2⟩
    else ⟨.error (failedLaunchMsg env), s.cache, s.installCalls, 1⟩

/-- `BrowserSetup.createOptimizedBrowser`: resolve a path via `setupBrowser`
(a throw from which propagates), then launch with the fallback policy. -/
def createOptimizedBrowser (env : BrowserEnv) (c : BrowserCache)
    (opts : BrowserSetupOptions) : LaunchOut :=
  launchWithFallback env (setupBrowser env c opts)

/-- The record returned by `getBrowserStatus`. -/
structure BrowserStatus where
  available : Bool
  executablePath : Option String := none
  systemOptimized : Bool
  error : Option String := none
deriving Repr, DecidableEq

/-- Observable outcome of one `getBrowserStatus` call. -/
structure StatusOut where
  status : BrowserStatus
  cache : BrowserCache
  installCalls : Nat

/-- `BrowserSetup.getBrowserStatus`: run `setupBrowser` with default options
and report; a thrown error becomes an unavailable status. -/
def getBrowserStatus (env : BrowserEnv) (c : BrowserCache) : StatusOut :=
  let s := setupBrowser env c {}
  match s.result with
  | .ok p =>
    ⟨{ available := true, executablePath := some p,
       systemOptimized := s.cache.systemOptimized }, s.cache, s.installCalls⟩
  | .error e =>
    ⟨{ available := false, systemOptimized := false, error := some e },
     s.cache, s.installCalls⟩

/-- One `setupBrowser` caller in the event-loop model: `pc` is the segment
between `await` boundaries (0 = cache guard and install call, 1 = install
resumption, 2 = detection resumption through path resolution, 3 = done). -/
structure TaskState where
  pc : Nat := 0
  opts : BrowserSetupOptions := {}
  result : Option (Except String String) := none

/-- Shared state of the two-caller system: the `BrowserSetup` statics, the
number of `installDependencies` invocations made so far, and both tasks. -/
structure ConcState where
  cache : BrowserCache := {}
  installCount : Nat := 0
  t0 : TaskState := {}
  t1 : TaskState := {}

/-- Run the next synchronous segment of one task.  Segment 0 runs the cache
guard and, if it falls through, synchronously starts `installDependencies`
(counting the invocation) before suspending; segment 1 resumes with the
install outcome and records it in `systemOptimized`; segment 2 resumes with
the detected profile, applies the Alpine/musl option mutation, resolves the
path and stores it. -/
def stepTask (env : BrowserEnv) (c : BrowserCache) (n : Nat)
    (ts : TaskState) : BrowserCache × Nat × TaskState :=
  match ts.pc with
  | 0 =>
    match c.browserPath with
    | some p =>
      if c.systemOptimized then (c, n, { ts with pc := 3, result := some (.ok p) })
      else (c, n + 1, { ts with pc := 1 })
    | none => (c, n + 1, { ts with pc := 1 })
  | 1 =>
    let r := installDependencies env.installEnv env.systemInfo
    ({ c with systemOptimized := r.success || c.systemOptimized }, n, { ts with pc := 2 })
  | 2 =>
    let si := env.systemInfo
    let opts1 := if alpineMuslB si then { ts.opts with useSystemChrome := some true } else ts.opts
    (match findOptimalBrowserPath env si opts1 with
     | .ok p =>
       ({ c with browserPath := some p }, n,
        { ts with pc := 3, opts := opts1, result := some (.ok p) })
     | .error e =>
       (c, n, { ts with pc := 3, opts := opts1, result := some (.error e) }))
  | _ => (c, n, ts)

/-- Give the scheduled task (`false` = first caller, `true` = second) its
next segment. -/
def stepSystem (env : BrowserEnv) (s : ConcState) (who : Bool) : ConcState :=
  match who with
  | true =>
    let r := stepTask env s.cache s.installCount s.t1
    { s with cache := r.1, installCount := r.2.1, t1 := r.2.2 }
  | false =>
    let r := stepTask env s.cache s.installCount s.t0
    { s with cache := r.1, installCount := r.2.1, t0 := r.2.2 }

/-- Run a schedule of segment grants. -/
def runSystem (env : BrowserEnv) (sched : List Bool) (s : ConcState) : ConcState :=
  sched.foldl (stepSystem env) s

/-- The event-loop schedule of two `setupBrowser` calls issued in the same
tick: both run their guard segment before either install resolves, then each
runs to completion. -/
def bothStartSched : List Bool :=
  [false, true, false, false, true, true]

/-- Boolean prefix test on character lists. -/
def charListPfx : List Char → List Char → Bool
  | [], _ => true
  | _ :: _, [] => false
  | a :: as, b :: bs => a == b && charListPfx as bs

/-- Boolean substring-occurrence test on character lists. -/
def charListHas (needle : List Char) : List Char → Bool
  | [] => needle.isEmpty
  | b :: bs => charListPfx needle (b :: bs) || charListHas needle bs

/-- JavaScript `s.includes(sub)`. -/
def strContains (s sub : String) : Bool :=
  charListHas sub.toList s.toList

/-- The claim that `InstallOutcome.succeeded` is true iff fewer than half of
the attempted packages failed, read off the outcome record (attempted =
recorded installed + recorded failed).  Stated from the specification text,
for comparison against the source-derived `installDependencies`. -/
def specSuccessIffMajority (env : InstallEnv) (si : SystemInfo) : Prop :=
  (installDependencies env si).success = true ↔
    2 * ((installDependencies env si).failedPackages.getD []).length <
      ((installDependencies env si).installedPackages.getD []).length +
        ((installDependencies env si).failedPackages.getD []).length

/-- The claim that a failed Alpine index refresh still lets every per-package
attempt run: every package of the fixed list ends up recorded as installed or
failed.  Stated from the specification text, for comparison against the
source-derived `installDependencies`. -/
def specRefreshBestEffort (env : InstallEnv) (si : SystemInfo) : Prop :=
  ((installDependencies env si).installedPackages.getD []).length +
    ((installDependencies env si).failedPackages.getD []).length =
    (alpinePackages si).length

/-- Debian/glibc profile. -/
def siDebian : SystemInfo :=
  { platform := "linux", distro := "debian", libc := some "glibc" }

/-- Alpine/musl profile. -/
def siAlpine : SystemInfo :=
  { platform := "linux", distro := "alpine", libc := some "musl" }

/-- Windows profile. -/
def siWin : SystemInfo :=
  { platform := "win32", distro := "windows" }

/-- Debian host where only `/usr/bin/google-chrome-stable` exists and the
bundled engine is absent. -/
def envDebianChrome : BrowserEnv :=
  { systemInfo := siDebian
    fsExists := fun s => s == "/usr/bin/google-chrome-stable" }

/-- Debian host where both `/usr/bin/google-chrome-stable` and a resolvable,
existing bundled engine at `/opt/pw/chrome` are present. -/
def envDebianBoth : BrowserEnv :=
  { systemInfo := siDebian
    fsExists := fun s => s == "/usr/bin/google-chrome-stable" || s == "/opt/pw/chrome"
    playwrightPath := .ok "/opt/pw/chrome" }

/-- Alpine/musl host with no system candidate present but with a resolvable,
existing bundled engine at `/pw/chromium` (bundled available = true). -/
def envAlpineNoSys : BrowserEnv :=
  { systemInfo := siAlpine
    fsExists := fun s => s == "/pw/chromium"
    playwrightPath := .ok "/pw/chromium" }

/-- Alpine/musl host where the packaged system Chromium exists. -/
def envAlpineSys : BrowserEnv :=
  { systemInfo := siAlpine
    fsExists := fun s => s == "/usr/bin/chromium-browser" }

/-- Debian host whose browser launch fails on invocations 1 and 2 and would
succeed from invocation 3 on. -/
def envLaunch12Fail : BrowserEnv :=
  { systemInfo := siDebian
    fsExists := fun s => s == "/usr/bin/google-chrome-stable"
    launchOk := fun n => decide (3 ≤ n)
    launchErr := fun _ => "spawn chrome ENOENTX" }

/-- Installer environment where every Chocolatey package install fails. -/
def envChocoAllFail : InstallEnv :=
  { chocoAddOk := fun _ => false }

/-- Installer environment where `apk update` fails but every `apk add` would
succeed. -/
def envApkUpdateFails : InstallEnv :=
  { apkUpdateOk := false }

/-- Primed cache: a resolved path with `systemOptimized` set. -/
def primedCache : BrowserCache :=
  { browserPath := some "/usr/bin/chromium", systemOptimized := true }

theorem pwResolved_fsExists {env : BrowserEnv} {p : String}
    (h : pwResolved env = some p) : env.fsExists p = true := by
  cases hp : env.playwrightPath with
  | error e => simp [pwResolved, hp] at h
  | ok q =>
    simp only [pwResolved, hp] at h
    by_cases hc : (q != "" && env.fsExists q) = true
    · rw [if_pos hc] at h
      cases h
      exact (Bool.and_eq_true _ _ ▸ hc).2
    · rw [if_neg hc] at h
      cases h

theorem systemFallbackScan_ok {env : BrowserEnv} {si : SystemInfo} {p : String}
    (h : systemFallbackScan env si = .ok p) : env.fsExists p = true := by
  unfold systemFallbackScan at h
  cases hf : (candidatePathsFor si).find? env.fsExists with
  | some q =>
    rw [hf] at h
    cases h
    exact List.find?_some hf
  | none =>
    rw [hf] at h
    by_cases hc : alpineMuslB si = true
    · rw [if_pos hc] at h; cases h
    · rw [if_neg hc] at h; cases h

theorem afterSystemLoop_ok {env : BrowserEnv} {si : SystemInfo} {p : String}
    (h : afterSystemLoop env si = .ok p) : env.fsExists p = true := by
  unfold afterSystemLoop at h
  by_cases hb : (!alpineMuslB si) = true
  · rw [if_pos hb] at h
    cases hw : pwResolved env with
    | some q =>
      rw [hw] at h
      cases h
      exact pwResolved_fsExists hw
    | none =>
      rw [hw] at h
      exact systemFallbackScan_ok h
  · rw [if_neg hb] at h
    exact systemFallbackScan_ok h

/-- C1: for every profile and every state of the injected existence check,
`findOptimalBrowserPath` either returns a path whose existence check
succeeded during the call, or throws; it never returns a path whose
existence check did not succeed. -/
theorem locate_returns_only_existing_paths (env : BrowserEnv) (si : SystemInfo)
    (opts : BrowserSetupOptions) (p : String)
    (h : findOptimalBrowserPath env si opts = .ok p) : env.fsExists p = true := by
  unfold findOptimalBrowserPath at h
  by_cases hb : (alpineMuslB si || opts.useSystemChrome == some true) = true
  · rw [if_pos hb] at h
    cases hf : (candidatePathsFor si).find? env.fsExists with
    | some q =>
      rw [hf] at h
      cases h
      exact List.find?_some hf
    | none =>
      rw [hf] at h
      by_cases ha : alpineMuslB si = true
      · rw [if_pos ha] at h; cases h
      · rw [if_neg ha] at h; exact afterSystemLoop_ok h
  · rw [if_neg hb] at h
    exact afterSystemLoop_ok h

/-- C1 witness: on a Debian host where exactly `/usr/bin/google-chrome-stable`
exists, the located path passes the existence check. -/
theorem locate_returns_only_existing_paths_witness :
    envDebianChrome.fsExists "/usr/bin/google-chrome-stable" = true :=
  locate_returns_only_existing_paths envDebianChrome siDebian {}
    "/usr/bin/google-chrome-stable" rfl

/-- C2 counterexample: on Alpine/musl with no system candidate but an
available bundled engine, the thrown message does not contain the claimed
literal `apk add --no-cache chromium chromium-chromedriver` (the source
message has no `--no-cache`). -/
theorem alpine_locate_message_counterexample :
    findOptimalBrowserPath envAlpineNoSys siAlpine {} = .error alpineRequiresMsg ∧
    strContains alpineRequiresMsg "apk add --no-cache chromium chromium-chromedriver" = false :=
  ⟨rfl, by decide⟩

/-- C2 (amended): on Alpine/musl profiles the locate operation never returns
the bundled engine path — any returned path is an existing member of the
system candidate list — and on failure it throws exactly the message
`Alpine Linux requires system Chromium. Please install with: apk add
chromium chromium-chromedriver`, which contains the install command
`apk add chromium chromium-chromedriver` (without `--no-cache`). -/
theorem alpine_locate_system_path_or_install_error (env : BrowserEnv)
    (si : SystemInfo) (opts : BrowserSetupOptions) (h : alpineMuslB si = true) :
    (∀ p, findOptimalBrowserPath env si opts = .ok p →
      p ∈ candidatePathsFor si ∧ env.fsExists p = true) ∧
    (∀ m, findOptimalBrowserPath env si opts = .error m → m = alpineRequiresMsg) ∧
    strContains alpineRequiresMsg "apk add chromium chromium-chromedriver" = true := by
  have hcond : (alpineMuslB si || opts.useSystemChrome == some true) = true := by
    rw [h]; rfl
  refine ⟨?_, ?_, by decide⟩
  · intro p hp
    unfold findOptimalBrowserPath at hp
    rw [if_pos hcond] at hp
    cases hf : (candidatePathsFor si).find? env.fsExists with
    | some q =>
      rw [hf] at hp
      cases hp
      exact ⟨List.mem_of_find?_eq_some hf, List.find?_some hf⟩
    | none =>
      rw [hf, if_pos h] at hp
      cases hp
  · intro m hm
    unfold findOptimalBrowserPath at hm
    rw [if_pos hcond] at hm
    cases hf : (candidatePathsFor si).find? env.fsExists with
    | some q =>
      rw [hf] at hm
      cases hm
    | none =>
      rw [hf, if_pos h] at hm
      cases hm
      rfl

/-- C2 witness: on an Alpine host where the packaged Chromium exists, the
returned path is an existing system candidate. -/
theorem alpine_locate_system_path_or_install_error_witness :
    "/usr/bin/chromium-browser" ∈ candidatePathsFor siAlpine ∧
      envAlpineSys.fsExists "/usr/bin/chromium-browser" = true :=
  (alpine_locate_system_path_or_install_error envAlpineSys siAlpine {} (by decide)).1
    "/usr/bin/chromium-browser" rfl

/-- C3 counterexample: on a Debian profile where `/usr/bin/google-chrome-stable`
exists, locate returns the bundled engine path `/opt/pw/chrome` instead of the
system candidate, because the bundled engine is probed before the system
candidate list for non-Alpine profiles. -/
theorem nonalpine_locate_order_counterexample :
    findOptimalBrowserPath envDebianBoth siDebian {} = .ok "/opt/pw/chrome" ∧
    "/opt/pw/chrome" ≠ "/usr/bin/google-chrome-stable" :=
  ⟨rfl, by decide⟩

/-- C3 (amended): for non-Alpine/non-musl profiles without the
`useSystemChrome` option, locate probes the bundled (Playwright) engine
first, and scans the system candidate list only when the bundled engine does
not resolve to an existing path; the Debian scenario returns
`/usr/bin/google-chrome-stable` only under bundled-engine absence. -/
theorem nonalpine_locate_bundled_first (env : BrowserEnv) (si : SystemInfo)
    (opts : BrowserSetupOptions) (h : alpineMuslB si = false)
    (hu : opts.useSystemChrome ≠ some true) :
    findOptimalBrowserPath env si opts =
      match pwResolved env with
      | some p => .ok p
      | none => systemFallbackScan env si := by
  have hcond : (alpineMuslB si || opts.useSystemChrome == some true) = false := by
    rw [h, Bool.false_or, beq_eq_false_iff_ne]
    exact hu
  unfold findOptimalBrowserPath afterSystemLoop
  rw [hcond, if_neg (by simp), h]
  rfl

/-- C3 witness: on the Debian host without a bundled engine, locate resolves
through the bundled-first decision to the existing system candidate. -/
theorem nonalpine_locate_bundled_first_witness :
    findOptimalBrowserPath envDebianChrome siDebian {} =
      match pwResolved envDebianChrome with
      | some p => .ok p
      | none => systemFallbackScan envDebianChrome siDebian :=
  nonalpine_locate_bundled_first envDebianChrome siDebian {} (by decide) (by decide)


/-- C4 counterexample: with a launch function that fails on invocations 1 and
2 and would succeed from invocation 3 on, and `retryAttempts := 3`,
`createOptimizedBrowser` throws after exactly 2 launch invocations instead of
returning a session after 3 attempts. -/
theorem launch_no_retry_counterexample :
    (createOptimizedBrowser envLaunch12Fail {} { retryAttempts := some 3 }).launchCalls = 2 ∧
    (createOptimizedBrowser envLaunch12Fail {} { retryAttempts := some 3 }).result =
      .error "Failed to launch browser: spawn chrome ENOENTX. Please ensure Chrome/Chromium is properly installed." ∧
    (2 : Nat) ≠ 3 :=
  ⟨rfl, rfl, by decide⟩

theorem findOptimalBrowserPath_useSystemChrome_congr (env : BrowserEnv)
    (si : SystemInfo) {o1 o2 : BrowserSetupOptions}
    (h : o1.useSystemChrome = o2.useSystemChrome) :
    findOptimalBrowserPath env si o1 = findOptimalBrowserPath env si o2 := by
  unfold findOptimalBrowserPath
  rw [h]

theorem setupBrowserFull_opts_congr (env : BrowserEnv) (c : BrowserCache)
    {o1 o2 : BrowserSetupOptions} (h : o1.useSystemChrome = o2.useSystemChrome) :
    (setupBrowserFull env c o1).result = (setupBrowserFull env c o2).result ∧
    (setupBrowserFull env c o1).cache = (setupBrowserFull env c o2).cache := by
  unfold setupBrowserFull
  dsimp only
  have h1 : ((if alpineMuslB env.systemInfo then { o1 with useSystemChrome := some true }
      else o1) : BrowserSetupOptions).useSystemChrome =
      ((if alpineMuslB env.systemInfo then { o2 with useSystemChrome := some true }
      else o2) : BrowserSetupOptions).useSystemChrome := by
    by_cases hb : alpineMuslB env.systemInfo = true
    · rw [if_pos hb, if_pos hb]
    · rw [if_neg hb, if_neg hb]; exact h
  rw [findOptimalBrowserPath_useSystemChrome_congr env env.systemInfo h1]
  cases hf : findOptimalBrowserPath env env.systemInfo
      (if alpineMuslB env.systemInfo then { o2 with useSystemChrome := some true } else o2) <;>
    simp [hf]

theorem setupBrowser_opts_congr (env : BrowserEnv) (c : BrowserCache)
    {o1 o2 : BrowserSetupOptions} (h : o1.useSystemChrome = o2.useSystemChrome) :
    (setupBrowser env c o1).result = (setupBrowser env c o2).result ∧
    (setupBrowser env c o1).cache = (setupBrowser env c o2).cache := by
  unfold setupBrowser
  cases hb : c.browserPath with
  | none => exact setupBrowserFull_opts_congr env c h
  | some p =>
    dsimp only
    by_cases hs : c.systemOptimized = true
    · rw [if_pos hs, if_pos hs]
      exact ⟨rfl, rfl⟩
    · rw [if_neg hs, if_neg hs]
      exact setupBrowserFull_opts_congr env c h

theorem launchWithFallback_calls_le_two (env : BrowserEnv) (s : SetupOut) :
    (launchWithFallback env s).launchCalls ≤ 2 := by
  unfold launchWithFallback
  cases hr : s.result with
  | error e => simp
  | ok p =>
    by_cases h1 : env.launchOk 1 = true
    · simp [h1]
    · by_cases h2 : (p != "") = true
      · by_cases h3 : env.launchOk 2 = true
        · cases hp : env.playwrightPath <;> simp [h1, h2, h3, hp]
        · simp [h1, h2, h3]
      · simp [h1, h2]

theorem launchWithFallback_congr (env : BrowserEnv) {s1 s2 : SetupOut}
    (hr : s1.result = s2.result) (hc : s1.cache = s2.cache) :
    (launchWithFallback env s1).result = (launchWithFallback env s2).result := by
  unfold launchWithFallback
  rw [hr, hc]
  cases hx : s2.result with
  | error e => simp
  | ok p =>
    by_cases h1 : env.launchOk 1 = true
    · simp [h1]
    · by_cases h2 : (p != "") = true
      · by_cases h3 : env.launchOk 2 = true
        · cases hp : env.playwrightPath <;> simp [h1, h2, h3, hp]
        · simp [h1, h2, h3]
      · simp [h1, h2]

/-- C4 (amended): `createOptimizedBrowser` makes at most two launch
invocations — the primary launch with the resolved path and at most one
fallback launch without an explicit path — and its outcome is independent of
the `retryAttempts` option, which is never consulted; no backoff or re-launch
loop exists. -/
theorem createOptimizedBrowser_launch_policy (env : BrowserEnv)
    (c : BrowserCache) (opts : BrowserSetupOptions) :
    (createOptimizedBrowser env c opts).launchCalls ≤ 2 ∧
    ∀ n, (createOptimizedBrowser env c { opts with retryAttempts := n }).result =
      (createOptimizedBrowser env c opts).result := by
  constructor
  · exact launchWithFallback_calls_le_two env (setupBrowser env c opts)
  · intro n
    have hco := @setupBrowser_opts_congr env c
      { opts with retryAttempts := n } opts rfl
    exact launchWithFallback_congr env hco.1 hco.2

theorem string_append_ne_empty {s : String} (t : String) (h : s ≠ "") :
    s ++ t ≠ "" := by
  intro he
  apply h
  have hd := congrArg String.data he
  rw [String.data_append] at hd
  rcases List.append_eq_nil.mp hd with ⟨h1, _⟩
  cases s with
  | mk d => cases h1; rfl

/-- C5 counterexample: on a Windows profile with Chocolatey present and both
packages failing, the outcome reports `succeeded = true` although all (hence
at least half) of the attempted packages failed. -/
theorem install_majority_rule_counterexample :
    ¬ specSuccessIffMajority envChocoAllFail siWin := by
  unfold specSuccessIffMajority
  decide

/-- C5 (amended): the majority-success rule — `succeeded` iff fewer than half
of the branch's fixed package list failed — holds for the per-package Linux
branches (Alpine, Debian, RedHat, Arch, outside WSL, when the index refresh
does not fail); the Windows branch instead always reports success, so the
rule does not hold for every input profile. -/
theorem linux_install_majority_rule (env : InstallEnv) (si : SystemInfo)
    (hp : si.platform = "linux") (hw : si.isWSL = false) :
    (si.distro = "alpine" → env.apkUpdateOk = true →
      ((installDependencies env si).success = true ↔
        2 * ((installDependencies env si).failedPackages.getD []).length <
          (alpinePackages si).length)) ∧
    (si.distro = "debian" → env.aptUpdateOk = true →
      ((installDependencies env si).success = true ↔
        2 * ((installDependencies env si).failedPackages.getD []).length <
          debianPackages.length)) ∧
    (si.distro = "redhat" →
      ((installDependencies env si).success = true ↔
        2 * ((installDependencies env si).failedPackages.getD []).length <
          redhatPackages.length)) ∧
    (si.distro = "arch" →
      ((installDependencies env si).success = true ↔
        2 * ((installDependencies env si).failedPackages.getD []).length <
          archPackages.length)) := by
  refine ⟨?_, ?_, ?_, ?_⟩
  · intro hd hu
    simp [installDependencies, dispatchBody, jsTry, installAlpineDependencies,
      installAlpineBody, hp, hw, hd, hu]
  · intro hd hu
    simp [installDependencies, dispatchBody, jsTry, installDebianDependencies,
      installDebianBody, hp, hw, hd, hu]
  · intro hd
    simp [installDependencies, dispatchBody, jsTry, installRedHatDependencies,
      hp, hw, hd]
  · intro hd
    simp [installDependencies, dispatchBody, jsTry, installArchDependencies,
      hp, hw, hd]

/-- C5 witness: on an Alpine/musl profile with all commands succeeding, the
outcome satisfies the majority rule instance. -/
theorem linux_install_majority_rule_witness :
    (installDependencies {} siAlpine).success = true ↔
      2 * ((installDependencies {} siAlpine).failedPackages.getD []).length <
        (alpinePackages siAlpine).length :=
  (linux_install_majority_rule {} siAlpine rfl rfl).1 rfl rfl

theorem installAlpineDependencies_message_ne (env : InstallEnv) (si : SystemInfo) :
    (installAlpineDependencies env si).message ≠ "" := by
  by_cases hu : env.apkUpdateOk = true
  · simp only [installAlpineDependencies, installAlpineBody, jsTry, if_pos hu]
    apply string_append_ne_empty
    apply string_append_ne_empty
    apply string_append_ne_empty
    decide
  · simp only [installAlpineDependencies, installAlpineBody, jsTry, if_neg hu]
    apply string_append_ne_empty
    decide

theorem installDebianDependencies_message_ne (env : InstallEnv) (si : SystemInfo) :
    (installDebianDependencies env si).message ≠ "" := by
  by_cases hu : env.aptUpdateOk = true
  · simp only [installDebianDependencies, installDebianBody, jsTry, if_pos hu]
    apply string_append_ne_empty
    apply string_append_ne_empty
    apply string_append_ne_empty
    decide
  · simp only [installDebianDependencies, installDebianBody, jsTry, if_neg hu]
    apply string_append_ne_empty
    decide

theorem installWSLDependencies_message_ne (env : InstallEnv) (si : SystemInfo) :
    (installWSLDependencies env si).message ≠ "" := by
  simp only [installWSLDependencies]
  apply string_append_ne_empty
  decide

theorem installRedHatDependencies_message_ne (env : InstallEnv) (si : SystemInfo) :
    (installRedHatDependencies env si).message ≠ "" := by
  simp only [installRedHatDependencies]
  apply string_append_ne_empty
  apply string_append_ne_empty
  apply string_append_ne_empty
  decide

theorem installArchDependencies_message_ne (env : InstallEnv) (si : SystemInfo) :
    (installArchDependencies env si).message ≠ "" := by
  simp only [installArchDependencies]
  apply string_append_ne_empty
  apply string_append_ne_empty
  apply string_append_ne_empty
  decide

theorem installWindowsDependencies_message_ne (env : InstallEnv) (si : SystemInfo) :
    (installWindowsDependencies env si).message ≠ "" := by
  simp only [installWindowsDependencies]
  apply string_append_ne_empty
  apply string_append_ne_empty
  apply string_append_ne_empty
  decide

theorem installMacOSDependencies_message_ne (env : InstallEnv) (si : SystemInfo) :
    (installMacOSDependencies env si).message ≠ "" := by
  by_cases hx : env.xcodeOk = true
  · simp only [installMacOSDependencies, if_pos hx]
    decide
  · simp only [installMacOSDependencies, if_neg hx]
    decide

/-- C6: the installer never throws for any input profile or command outcome:
the dispatch body (the code inside `installDependencies`'s outer `try`)
always produces an outcome rather than a rejection — every rejecting command
is absorbed by a branch-level catch — and the returned outcome always
carries a nonempty human-readable message. -/
theorem installDependencies_never_throws (env : InstallEnv) (si : SystemInfo) :
    (∃ r, dispatchBody env si = Except.ok r) ∧
    (installDependencies env si).message ≠ "" := by
  constructor
  · unfold dispatchBody
    split_ifs <;> exact ⟨_, rfl⟩
  · unfold installDependencies jsTry dispatchBody
    split_ifs <;> dsimp only
    · exact installWindowsDependencies_message_ne env si
    · exact installWSLDependencies_message_ne env si
    · exact installAlpineDependencies_message_ne env si
    · exact installDebianDependencies_message_ne env si
    · exact installRedHatDependencies_message_ne env si
    · exact installArchDependencies_message_ne env si
    · apply string_append_ne_empty
      apply string_append_ne_empty
      apply string_append_ne_empty
      decide
    · exact installMacOSDependencies_message_ne env si
    · apply string_append_ne_empty
      apply string_append_ne_empty
      apply string_append_ne_empty
      decide

/-- C7 counterexample: on Alpine/musl with `apk update` failing and every
`apk add` succeeding, no per-package attempt is recorded at all — the claim
that all packages are still attempted after a refresh failure is false. -/
theorem refresh_failure_best_effort_counterexample :
    ¬ specRefreshBestEffort envApkUpdateFails siAlpine := by
  unfold specRefreshBestEffort
  decide

/-- C7 (amended): a failure of the package-index refresh aborts the
installation branch: on Alpine (`apk update`) and Debian (`apt-get update`)
the branch returns a failed outcome carrying no attempted packages — the
per-package install loop never runs. -/
theorem refresh_failure_aborts (env : InstallEnv) (si : SystemInfo)
    (hp : si.platform = "linux") (hw : si.isWSL = false) :
    (si.distro = "alpine" → env.apkUpdateOk = false →
      installDependencies env si =
        { success := false
          message := "Alpine dependency installation failed: " ++ env.errText
          failedPackages := some [] }) ∧
    (si.distro = "debian" → env.aptUpdateOk = false →
      installDependencies env si =
        { success := false
          message := "Debian dependency installation failed: " ++ env.errText
          failedPackages := some [] }) := by
  constructor
  · intro hd hu
    simp [installDependencies, dispatchBody, jsTry, installAlpineDependencies,
      installAlpineBody, hp, hw, hd, hu]
  · intro hd hu
    simp [installDependencies, dispatchBody, jsTry, installDebianDependencies,
      installDebianBody, hp, hw, hd, hu]

/-- C7 witness: the concrete Alpine instance with a failing `apk update`. -/
theorem refresh_failure_aborts_witness :
    installDependencies envApkUpdateFails siAlpine =
      { success := false
        message := "Alpine dependency installation failed: " ++ envApkUpdateFails.errText
        failedPackages := some [] } :=
  (refresh_failure_aborts envApkUpdateFails siAlpine rfl rfl).1 rfl rfl

/-- C8 counterexample: from the unprimed initial state, a status query runs
the full setup path and invokes the dependency installation once — the claim
that the status operation never performs dependency installation is false. -/
theorem status_installs_counterexample :
    (getBrowserStatus envDebianChrome {}).installCalls = 1 ∧ (1 : Nat) ≠ 0 :=
  ⟨rfl, by decide⟩

/-- C8 (amended): `getBrowserStatus` performs no dependency installation only
when the cache is primed (a resolved path is stored and `systemOptimized` is
set); in every other cached state it re-runs the full setup, including the
package-manager install procedure. -/
theorem getBrowserStatus_no_install_when_primed (env : BrowserEnv)
    (c : BrowserCache) (p : String) (h1 : c.browserPath = some p)
    (h2 : c.systemOptimized = true) :
    (getBrowserStatus env c).installCalls = 0 := by
  simp [getBrowserStatus, setupBrowser, h1, h2]

/-- C8 witness: the primed concrete cache yields a status query with zero
install invocations. -/
theorem getBrowserStatus_no_install_when_primed_witness :
    (getBrowserStatus envDebianChrome primedCache).installCalls = 0 :=
  getBrowserStatus_no_install_when_primed envDebianChrome primedCache
    "/usr/bin/chromium" rfl rfl

/-- C9 counterexample: two `setupBrowser` calls issued in the same event-loop
tick both pass the cache guard before the first install resolves, so the
dependency install command runs twice, not once. -/
theorem single_flight_counterexample :
    (runSystem envDebianChrome bothStartSched {}).installCount = 2 ∧ (2 : Nat) ≠ 1 :=
  ⟨rfl, by decide⟩

/-- C9 (amended): `setupBrowser` has no single-flight collapsing: under the
schedule in which both callers run their guard segment before either install
resolves, the dependency install is invoked once per caller (twice for two
callers); both callers do still receive the same resolved path or the same
failure, because path resolution is deterministic in the environment. -/
theorem setupBrowser_no_single_flight (env : BrowserEnv) (opts : BrowserSetupOptions) :
    (runSystem env bothStartSched { t0 := { opts := opts }, t1 := { opts := opts } }).installCount = 2 ∧
    (runSystem env bothStartSched { t0 := { opts := opts }, t1 := { opts := opts } }).t0.result =
      (runSystem env bothStartSched { t0 := { opts := opts }, t1 := { opts := opts } }).t1.result := by
  have hstep : runSystem env bothStartSched { t0 := { opts := opts }, t1 := { opts := opts } } = stepSystem env (stepSystem env (stepSystem env (stepSystem env (stepSystem env (stepSystem env { t0 := { opts := opts }, t1 := { opts := opts } } false) true) false) false) true) true := rfl
  have h3 : stepSystem env (stepSystem env (stepSystem env ({ t0 := { opts := opts }, t1 := { opts := opts } } : ConcState) false) true) false = { cache := { browserPath := none, systemOptimized := (installDependencies env.installEnv env.systemInfo).success || false }, installCount := 2, t0 := { pc := 2, opts := opts, result := none }, t1 := { pc := 1, opts := opts, result := none } } := rfl
  rw [hstep, h3]
  cases hf : findOptimalBrowserPath env env.systemInfo (if alpineMuslB env.systemInfo then { opts with useSystemChrome := some true } else opts) with
  | ok p =>
    have h4 : stepSystem env ({ cache := { browserPath := none, systemOptimized := (installDependencies env.installEnv env.systemInfo).success || false }, installCount := 2, t0 := { pc := 2, opts := opts, result := none }, t1 := { pc := 1, opts := opts, result := none } } : ConcState) false = { cache := { browserPath := some p, systemOptimized := (installDependencies env.installEnv env.systemInfo).success || false }, installCount := 2, t0 := { pc := 3, opts := (if alpineMuslB env.systemInfo then { opts with useSystemChrome := some true } else opts), result := some (Except.ok p) }, t1 := { pc := 1, opts := opts, result := none } } := by
      dsimp only [stepSystem, stepTask]
      rw [hf]
    rw [h4]
    have h5 : stepSystem env ({ cache := { browserPath := some p, systemOptimized := (installDependencies env.installEnv env.systemInfo).success || false }, installCount := 2, t0 := { pc := 3, opts := (if alpineMuslB env.systemInfo then { opts with useSystemChrome := some true } else opts), result := some (Except.ok p) }, t1 := { pc := 1, opts := opts, result := none } } : ConcState) true = { cache := { browserPath := some p, systemOptimized := (installDependencies env.installEnv env.systemInfo).success || ((installDependencies env.installEnv env.systemInfo).success || false) }, installCount := 2, t0 := { pc := 3, opts := (if alpineMuslB env.systemInfo then { opts with useSystemChrome := some true } else opts), result := some (Except.ok p) }, t1 := { pc := 2, opts := opts, result := none } } := rfl
    rw [h5]
    have h6 : stepSystem env ({ cache := { browserPath := some p, systemOptimized := (installDependencies env.installEnv env.systemInfo).success || ((installDependencies env.installEnv env.systemInfo).success || false) }, installCount := 2, t0 := { pc := 3, opts := (if alpineMuslB env.systemInfo then { opts with useSystemChrome := some true } else opts), result := some (Except.ok p) }, t1 := { pc := 2, opts := opts, result := none } } : ConcState) true = { cache := { browserPath := some p, systemOptimized := (installDependencies env.installEnv env.systemInfo).success || ((installDependencies env.installEnv env.systemInfo).success || false) }, installCount := 2, t0 := { pc := 3, opts := (if alpineMuslB env.systemInfo then { opts with useSystemChrome := some true } else opts), result := some (Except.ok p) }, t1 := { pc := 3, opts := (if alpineMuslB env.systemInfo then { opts with useSystemChrome := some true } else opts), result := some (Except.ok p) } } := by
      dsimp only [stepSystem, stepTask]
      rw [hf]
    rw [h6]
    exact ⟨rfl, rfl⟩
  | error e =>
    have h4 : stepSystem env ({ cache := { browserPath := none, systemOptimized := (installDependencies env.installEnv env.systemInfo).success || false }, installCount := 2, t0 := { pc := 2, opts := opts, result := none }, t1 := { pc := 1, opts := opts, result := none } } : ConcState) false = { cache := { browserPath := none, systemOptimized := (installDependencies env.installEnv env.systemInfo).success || false }, installCount := 2, t0 := { pc := 3, opts := (if alpineMuslB env.systemInfo then { opts with useSystemChrome := some true } else opts), result := some (Except.error e) }, t1 := { pc := 1, opts := opts, result := none } } := by
      dsimp only [stepSystem, stepTask]
      rw [hf]
    rw [h4]
    have h5 : stepSystem env ({ cache := { browserPath := none, systemOptimized := (installDependencies env.installEnv env.systemInfo).success || false }, installCount := 2, t0 := { pc := 3, opts := (if alpineMuslB env.systemInfo then { opts with useSystemChrome := some true } else opts), result := some (Except.error e) }, t1 := { pc := 1, opts := opts, result := none } } : ConcState) true = { cache := { browserPath := none, systemOptimized := (installDependencies env.installEnv env.systemInfo).success || ((installDependencies env.installEnv env.systemInfo).success || false) }, installCount := 2, t0 := { pc := 3, opts := (if alpineMuslB env.systemInfo then { opts with useSystemChrome := some true } else opts), result := some (Except.error e) }, t1 := { pc := 2, opts := opts, result := none } } := rfl
    rw [h5]
    have h6 : stepSystem env ({ cache := { browserPath := none, systemOptimized := (installDependencies env.installEnv env.systemInfo).success || ((installDependencies env.installEnv env.systemInfo).success || false) }, installCount := 2, t0 := { pc := 3, opts := (if alpineMuslB env.systemInfo then { opts with useSystemChrome := some true } else opts), result := some (Except.error e) }, t1 := { pc := 2, opts := opts, result := none } } : ConcState) true = { cache := { browserPath := none, systemOptimized := (installDependencies env.installEnv env.systemInfo).success || ((installDependencies env.installEnv env.systemInfo).success || false) }, installCount := 2, t0 := { pc := 3, opts := (if alpineMuslB env.systemInfo then { opts with useSystemChrome := some true } else opts), result := some (Except.error e) }, t1 := { pc := 3, opts := (if alpineMuslB env.systemInfo then { opts with useSystemChrome := some true } else opts), result := some (Except.error e) } } := by
      dsimp only [stepSystem, stepTask]
      rw [hf]
    rw [h6]
    exact ⟨rfl, rfl⟩

/-- C10: when the detected profile is Alpine or musl and the call performs a
fresh setup (the cache is not primed), `setupBrowser` mutates the
caller-supplied options object by setting `useSystemChrome := true`, and
leaves every other option field unchanged. -/
theorem setupBrowser_mutates_useSystemChrome (env : BrowserEnv)
    (c : BrowserCache) (opts : BrowserSetupOptions)
    (hc : c.browserPath = none ∨ c.systemOptimized = false)
    (ha : alpineMuslB env.systemInfo = true) :
    (setupBrowser env c opts).opts.useSystemChrome = some true ∧
    (setupBrowser env c opts).opts.headless = opts.headless ∧
    (setupBrowser env c opts).opts.timeout = opts.timeout ∧
    (setupBrowser env c opts).opts.retryAttempts = opts.retryAttempts := by
  have hfull : setupBrowser env c opts = setupBrowserFull env c opts := by
    unfold setupBrowser
    cases hb : c.browserPath with
    | none => rfl
    | some p =>
      dsimp only
      rcases hc with h | h
      · rw [hb] at h; cases h
      · rw [if_neg (by rw [h]; simp)]
  rw [hfull]
  unfold setupBrowserFull
  dsimp only
  rw [if_pos ha]
  cases hf : findOptimalBrowserPath env env.systemInfo
      { opts with useSystemChrome := some true } <;> simp [hf]

/-- C10 witness: a fresh Alpine setup sets exactly the `useSystemChrome`
field of the caller options. -/
theorem setupBrowser_mutates_useSystemChrome_witness :
    (setupBrowser envAlpineSys {} {}).opts.useSystemChrome = some true ∧
    (setupBrowser envAlpineSys {} {}).opts.headless = ({} : BrowserSetupOptions).headless ∧
    (setupBrowser envAlpineSys {} {}).opts.timeout = ({} : BrowserSetupOptions).timeout ∧
    (setupBrowser envAlpineSys {} {}).opts.retryAttempts = ({} : BrowserSetupOptions).retryAttempts :=
  setupBrowser_mutates_useSystemChrome envAlpineSys {} {} (Or.inl rfl) (by decide)
